import Mathlib

/-!
Verification of the protocol layer of `drivecom/phison_device.py`: the
command-descriptor codec, device-mode derivation, the chunked header/body
transfer protocol, the firmware-update sequencing and the firmware dump
layout.

The embedding models byte buffers as `List Nat`, the SCSI transport as
functions supplying the device's responses, and each operation as a pure
function returning the list of protocol events it dispatches together with
its outcome (normal return or the Python exception it raises).
-/

set_option maxRecDepth 40000

namespace Phison

/-- A protocol event observable at the transport boundary: one dispatched
command (with the mutable descriptor fields that were patched in and the
outbound payload), the vendor-info read backing a mode query, or a settle
delay. -/
inductive Ev where
  | loadHeader (selector : Nat) (payload : List Nat)
  | loadBody (selector address count : Nat) (payload : List Nat)
  | getStatus
  | jumpToBootmode
  | jumpToPram
  | firmwareUpdate (s2 s3 : Nat)
  | queryMode
  | sleep
deriving DecidableEq, Repr

/-- The outcome of an operation: normal return, or the exception the Python
code raises: `PhisonDeviceException` with the given message; the
`UnboundLocalError` caused by the undeclared loop variable `size` in
`transfer_data`; `typeErrorTupleAssign`, the `TypeError` raised by the item
assignment `PhisonCmd.FIRMWARE_UPDATE[0][2] = ...` into `FIRMWARE_UPDATE`'s
command template, which is a tuple; or `typeErrorMissingSelf`, the
`TypeError` raised by calling `execute_image` — defined without a `self`
parameter — through an instance. -/
inductive Outcome where
  | ok
  | headerRejected
  | bodyRejected
  | unboundLocalSize
  | burnerImageRequired
  | typeErrorTupleAssign
  | typeErrorMissingSelf
deriving DecidableEq, Repr

/-- `word_from_data(data, offset)`: big-endian 16-bit read,
`(data[offset] << 8) + data[offset+1]`. -/
def word_from_data (data : List Nat) (offset : Nat) : Nat :=
  (data.getD offset 0 <<< 8) + data.getD (offset + 1) 0

/-- `word_to_data(data, offset, value)`: big-endian 16-bit patch,
`data[offset] = (value >> 8) & 0xFF; data[offset+1] = value & 0xFF`. -/
def word_to_data (data : List Nat) (offset value : Nat) : List Nat :=
  (data.set offset ((value >>> 8) &&& 0xFF)).set (offset + 1) (value &&& 0xFF)

/-- `insert_data(data, offset, value_list)`: `data[offset+i] = value_list[i]`
for each `i` below `len(value_list)`. -/
def insert_data : List Nat → Nat → List Nat → List Nat
  | data, _, [] => data
  | data, offset, v :: vs => insert_data (data.set offset v) (offset + 1) vs

/-- `get_num_lbas()`: fold the first 4 response bytes via
`ret = (ret << 8) | i`, then return `ret + 1`.  Parameterized by the
transport's response `res`. -/
def get_num_lbas (res : List Nat) : Nat :=
  ((res.take 4).foldl (fun ret i => (ret <<< 8) ||| i) 0) + 1

/-- The byte values of the mode tag `" PRAM   "`. -/
def pramTag : List Nat := [0x20, 0x50, 0x52, 0x41, 0x4D, 0x20, 0x20, 0x20]

/-- The byte values of the mode tag `" FW BURN"`. -/
def fwBurnTag : List Nat := [0x20, 0x46, 0x57, 0x20, 0x42, 0x55, 0x52, 0x4E]

/-- The byte values of the mode tag `" HV TEST"`. -/
def hvTestTag : List Nat := [0x20, 0x48, 0x56, 0x20, 0x54, 0x45, 0x53, 0x54]

/-- `mode_from_vendor_info(vendor_info)`: `None` unless bytes 0x17A/0x17B are
`'V'`/`'R'`; otherwise the index of the 8-byte string at 0xA0 in
`(" PRAM   ", " FW BURN", " HV TEST")`, or 3 when it is none of those.
`tuple.index` returns the first matching index, which for these three
pairwise-distinct tags is the if-chain below. -/
def mode_from_vendor_info (vendor_info : List Nat) : Option Nat :=
  if vendor_info.getD 0x17A 0 = 0x56 ∧ vendor_info.getD 0x17B 0 = 0x52 then
    let mode_string := (vendor_info.drop 0xA0).take 8
    if mode_string = pramTag then some 0
    else if mode_string = fwBurnTag then some 1
    else if mode_string = hvTestTag then some 2
    else some 3
  else none

/-- `PhisonDevice.transfer_data(data, header, body)`.  `status i` is byte 0 of
the device's response to the i-th `GET_STATUS` query of this call.

`data_size = len(data) - 1024` (Python int, so modelled as `Int`).  The header
stage sends `data[:0x200]` with the header selector patched into the
descriptor and requires status byte 0x55.  The body loop
(`while data_size > 0`) sends at most one chunk: at the end of its first
iteration the statement `size -= chunk_size` reads the local variable `size`,
which is never assigned anywhere in the function (the tracked counter is
`data_size`), so Python raises `UnboundLocalError` and no second iteration
can begin. -/
def transfer_data (status : Nat → Nat) (data : List Nat) (header body : Nat) :
    List Ev × Outcome :=
  let data_size : Int := (data.length : Int) - 1024
  let headerEvs : List Ev := [Ev.loadHeader header (data.take 0x200), Ev.getStatus]
  if status 0 ≠ 0x55 then
    (headerEvs, Outcome.headerRejected)
  else if data_size > 0 then
    -- first (and only reachable) iteration of the body loop, address = 0
    let chunk_size : Int := if data_size > 0x8000 then 0x8000 else data_size
    let cmd_address : Nat := 0 >>> 9
    let cmd_chunk : Nat := chunk_size.toNat >>> 9
    let payload := (data.drop (0 + 0x200)).take chunk_size.toNat
    let evs := headerEvs ++ [Ev.loadBody body cmd_address cmd_chunk payload, Ev.getStatus]
    if status 1 ≠ 0xA5 then (evs, Outcome.bodyRejected)
    else (evs, Outcome.unboundLocalSize)
  else (headerEvs, Outcome.ok)

/-- `PhisonDevice.execute_image`: transfer the image with the default
selectors (header 0x03, body 0x02), then wait.  The source line
`self.jump_to_pram` is a bare attribute access without a call, so no
JUMP_TO_PRAM command is dispatched (the method is also defined without a
`self` parameter, so invoking it through an instance raises `TypeError`
before the body even runs; the body modelled here is what the statements in
it denote). -/
def execute_image (status : Nat → Nat) (data : List Nat) : List Ev × Outcome :=
  let p := transfer_data status data 0x03 0x02
  if p.2 ≠ Outcome.ok then p
  else (p.1 ++ [Ev.sleep], Outcome.ok)

/-- `PhisonDevice._run_firmware`: jump to boot mode + settle delay, then
`transfer_data(data, 0x01, 0x00)` (`st1` supplies the status bytes it
consumes; a `PhisonDeviceException` from it propagates).  The next source
statement, `PhisonCmd.FIRMWARE_UPDATE[0][2] = 0x01` (line 285), is an item
assignment into `FIRMWARE_UPDATE`'s command template, which is declared as
a tuple (lines 90-93) even though the class comment says commands with
variable fields are lists; Python therefore raises `TypeError` there, so no
FIRMWARE_UPDATE command is ever dispatched and the remainder of the source
sequence (the second transfer, the further FIRMWARE_UPDATE dispatches, the
jump to loaded code and the final mode query) is unreachable. -/
def run_firmware (st1 : Nat → Nat) (data : List Nat) : List Ev × Outcome :=
  let evs0 : List Ev := [Ev.jumpToBootmode, Ev.sleep]
  let p1 := transfer_data st1 data 0x01 0x00
  if p1.2 ≠ Outcome.ok then (evs0 ++ p1.1, p1.2)
  else (evs0 ++ p1.1, Outcome.typeErrorTupleAssign)

/-- `PhisonDevice.send_firmware(firmware_filename, burner_filename)`: query
the mode (one GET_VENDOR_INFO read, whose payload is `vi`).  When the mode
is not Burner(1): raise `PhisonDeviceException("Burner image needed.")`
when no burner path was supplied (`hasBurner = false`); jump to boot mode
and wait when additionally not BootMode(0); then the call
`self.execute_image(burner_filename)` (line 267) raises `TypeError` —
`execute_image` is defined without a `self` parameter, so the instance call
passes two arguments to a one-parameter function — before any statement of
`execute_image` runs, and `_run_firmware` is never reached.  In Burner mode
`_run_firmware(firmware_filename)` is invoked directly: `st` supplies the
status bytes during its transfer and `fw` the firmware image bytes. -/
def send_firmware (st : Nat → Nat) (vi : List Nat) (fw : List Nat)
    (hasBurner : Bool) : List Ev × Outcome :=
  let mode := mode_from_vendor_info vi
  let evs : List Ev := [Ev.queryMode]
  if mode ≠ some 1 then
    if hasBurner = false then (evs, Outcome.burnerImageRequired)
    else
      let evs := if mode ≠ some 0 then evs ++ [Ev.jumpToBootmode, Ev.sleep] else evs
      (evs, Outcome.typeErrorMissingSelf)
  else
    let p := run_firmware st fw
    (evs ++ p.1, p.2)

/-- The fixed 20-byte magic header `dump_firmware` writes at offset 0. -/
def magicHeader : List Nat :=
  [0x42, 0x74, 0x50, 0x72, 0x61, 0x6D, 0x43, 0x64,
   0x00, 0x00, 0x00, 0x00, 0x00, 0x00, 0x00, 0x00,
   0x14, 0x10, 0x0B, 0x18]

/-- The fixed 24-byte magic footer `dump_firmware` writes at
`len(data) - 0x200`. -/
def magicFooter : List Nat :=
  [0x74, 0x68, 0x69, 0x73, 0x20, 0x69, 0x73, 0x20,
   0x6D, 0x70, 0x20, 0x6D, 0x61, 0x72, 0x6B, 0x00,
   0x03, 0x01, 0x00, 0x10, 0x01, 0x04, 0x10, 0x42]

theorem insert_data_length (v : List Nat) :
    ∀ (d : List Nat) (o : Nat), (insert_data d o v).length = d.length := by
  induction v with
  | nil => intro d o; rfl
  | cons a vs ih => intro d o; rw [insert_data, ih]; simp

/-- The body-read loop of `PhisonDevice.dump_firmware`.  `read a l` is the
transport's response to a READ_BODY command with block address `a` and
expected response length `l` (the descriptor's count field is `l / 0x200`,
not recorded here since only the returned bytes reach the output buffer). -/
def dumpLoop (read : Nat → Nat → List Nat) (data : List Nat) (address : Nat) :
    List Nat :=
  if h : address * 0x200 < data.length then
    let length := min (0x40 * 0x200) ((data.length - 0x400) - address * 0x200)
    let res := read address length
    dumpLoop read (insert_data data (0x200 + address * 0x200) res) (address + 0x40)
  else data
termination_by data.length - address * 0x200
decreasing_by simp only [insert_data_length]; omega

/-- `PhisonDevice.dump_firmware`: the 0x32400-byte output buffer with the
magic header at 0, the body blocks read in 0x40-block strides from offset
0x200, and the magic footer at `len(data) - 0x200`. -/
def dump_firmware (read : Nat → Nat → List Nat) : List Nat :=
  let data := List.replicate 0x32400 0
  let data1 := insert_data data 0 magicHeader
  let data2 := dumpLoop read data1 0
  insert_data data2 (data2.length - 0x200) magicFooter

/-- The spec's reading of `get_num_lbas`: `decode_be32(response[0:4])`, the
first four response bytes combined big-endian into an unsigned integer.
Written from the spec's words, for comparison with the source fold. -/
def decode_be32 (l : List Nat) : Nat :=
  l.getD 0 0 * 0x1000000 + l.getD 1 0 * 0x10000 + l.getD 2 0 * 0x100 + l.getD 3 0

/-- A 528-byte VendorInfo with the VR marker present and an all-zero mode
tag: the device reports Firmware mode (3). -/
def viFirmware : List Nat := insert_data (List.replicate 528 0) 0x17A [0x56, 0x52]

/-- A 528-byte VendorInfo with the VR marker present and mode tag
`" PRAM   "`: the device reports BootMode (0). -/
def viPram : List Nat :=
  insert_data (insert_data (List.replicate 528 0) 0x17A [0x56, 0x52]) 0xA0 pramTag

/-- A 528-byte all-zero VendorInfo: the VR marker is absent. -/
def viBlank : List Nat := List.replicate 528 0

/-- An image whose body size is `0x8001` bytes, one byte more than a single
body chunk: the spec expects two body-load dispatches for it. -/
def c1Data : List Nat := List.replicate (1024 + 0x8001) 0

/-- A device that accepts the header stage (status 0x55) and every body
stage (status 0xA5). -/
def c1Status : Nat → Nat := fun i => if i = 0 then 0x55 else 0xA5

/-- The number of body-load dispatches in a trace. -/
def countBody (t : List Ev) : Nat :=
  t.countP fun e => match e with
    | Ev.loadBody _ _ _ _ => true
    | _ => false

-- ------------------------------------------------------------------
-- Helper lemmas
-- ------------------------------------------------------------------

theorem and_255_eq_mod (x : Nat) : x &&& 0xFF = x % 256 := by
  have h := Nat.and_pow_two_sub_one_eq_mod x 8
  norm_num at h
  exact h

theorem shiftLeft8_or_eq (x i : Nat) (h : i < 256) : (x <<< 8) ||| i = x * 256 + i := by
  rw [Nat.shiftLeft_eq]
  have h2 := Nat.mul_add_lt_is_or (i := 8) (by simpa using h) x
  norm_num [Nat.mul_comm] at h2
  exact h2.symm


theorem insert_data_eq_append (v : List Nat) :
    ∀ (d : List Nat) (o : Nat), o + v.length ≤ d.length →
      insert_data d o v = d.take o ++ v ++ d.drop (o + v.length) := by
  induction v with
  | nil =>
    intro d o h
    rw [insert_data]
    simp
  | cons a vs ih =>
    intro d o h
    simp only [List.length_cons] at h
    have ho : o < d.length := by omega
    rw [insert_data, ih _ (o + 1) (by rw [List.length_set]; omega)]
    have htake : (d.set o a).take (o + 1) = d.take o ++ [a] := by
      rw [List.set_take, List.set_eq_take_cons_drop a
        (by rw [List.length_take]; omega)]
      rw [List.take_take]
      have h1 : min o (o + 1) = o := by omega
      have h2 : (d.take (o + 1)).drop (o + 1) = [] := by
        apply List.drop_eq_nil_of_le
        rw [List.length_take]; omega
      rw [h1, h2]
    have hdrop : (d.set o a).drop (o + 1 + vs.length) = d.drop (o + 1 + vs.length) := by
      rw [List.drop_set, if_pos (by omega)]
    rw [htake, hdrop]
    have harith : o + 1 + vs.length = o + (vs.length + 1) := by omega
    rw [harith]
    simp [List.append_assoc]

theorem insert_data_mid (xs v : List Nat) (n o : Nat)
    (ho : xs.length ≤ o) (hv : o + v.length ≤ xs.length + n) :
    insert_data (xs ++ List.replicate n 0) o v =
      (xs ++ List.replicate (o - xs.length) 0 ++ v) ++
        List.replicate (xs.length + n - o - v.length) 0 := by
  rw [insert_data_eq_append v _ o (by simp; omega)]
  rw [List.take_append_eq_append_take, List.drop_append_eq_append_drop]
  rw [List.take_of_length_le ho, List.drop_eq_nil_of_le (by omega)]
  rw [List.take_replicate, List.drop_replicate]
  have h1 : min (o - xs.length) n = o - xs.length := by omega
  have h2 : n - (o + v.length - xs.length) = xs.length + n - o - v.length := by omega
  rw [h1, h2]
  simp [List.append_assoc]

theorem dumpLoop_step (read : Nat → Nat → List Nat) (xs : List Nat) (a n L : Nat)
    (hxs : xs.length = 0x200 + a * 0x200)
    (hn : xs.length + n = 0x32400)
    (hL : min (0x40 * 0x200) (0x32000 - a * 0x200) = L)
    (hread : (read a L).length = L)
    (hlt : a * 0x200 < 0x32400)
    (hLn : L ≤ n) :
    dumpLoop read (xs ++ List.replicate n 0) a =
      dumpLoop read ((xs ++ read a L) ++ List.replicate (n - L) 0) (a + 0x40) := by
  have hlen : (xs ++ List.replicate n 0).length = 0x32400 := by
    simpa using hn
  rw [dumpLoop, dif_pos (by rw [hlen]; exact hlt)]
  have hLeq : min (0x40 * 0x200) (((xs ++ List.replicate n 0).length - 0x400) - a * 0x200) = L := by
    rw [hlen]
    norm_num at hL ⊢
    omega
  rw [hLeq]
  have hins : insert_data (xs ++ List.replicate n 0) (0x200 + a * 0x200) (read a L) =
      (xs ++ read a L) ++ List.replicate (n - L) 0 := by
    rw [← hxs]
    rw [insert_data_mid xs (read a L) n xs.length (Nat.le_refl _) (by omega)]
    rw [hread]
    simp only [Nat.sub_self, List.replicate_zero, List.nil_append]
    have harith : xs.length + n - xs.length - L = n - L := by omega
    rw [harith]
    simp
  simp only [hins]

theorem dump_firmware_eq (read : Nat → Nat → List Nat)
    (hread : ∀ a l, (read a l).length = l) :
    dump_firmware read =
      (((((((((magicHeader ++ List.replicate 492 0)
        ++ read 0x0 0x8000) ++ read 0x40 0x8000) ++ read 0x80 0x8000)
        ++ read 0xC0 0x8000) ++ read 0x100 0x8000) ++ read 0x140 0x8000)
        ++ read 0x180 0x2000) ++ magicFooter) ++ List.replicate 488 0 := by
  have hins0 : insert_data (List.replicate 0x32400 0) 0 magicHeader
      = (magicHeader ++ List.replicate 492 0) ++ List.replicate 0x32200 0 := by
    rw [insert_data_eq_append magicHeader _ 0 (by rw [List.length_replicate]; decide)]
    rw [List.drop_replicate]
    norm_num [show magicHeader.length = 20 from rfl]
  have L0 : (magicHeader ++ List.replicate 492 0).length = 0x200 := by
    rw [List.length_append, List.length_replicate]; decide
  have L1 : ((magicHeader ++ List.replicate 492 0) ++ read 0x0 0x8000).length
      = 0x8200 := by
    rw [List.length_append, L0, hread]
  have L2 : (((magicHeader ++ List.replicate 492 0) ++ read 0x0 0x8000)
      ++ read 0x40 0x8000).length = 0x10200 := by
    rw [List.length_append, L1, hread]
  have L3 : ((((magicHeader ++ List.replicate 492 0) ++ read 0x0 0x8000)
      ++ read 0x40 0x8000) ++ read 0x80 0x8000).length = 0x18200 := by
    rw [List.length_append, L2, hread]
  have L4 : (((((magicHeader ++ List.replicate 492 0) ++ read 0x0 0x8000)
      ++ read 0x40 0x8000) ++ read 0x80 0x8000) ++ read 0xC0 0x8000).length
      = 0x20200 := by
    rw [List.length_append, L3, hread]
  have L5 : ((((((magicHeader ++ List.replicate 492 0) ++ read 0x0 0x8000)
      ++ read 0x40 0x8000) ++ read 0x80 0x8000) ++ read 0xC0 0x8000)
      ++ read 0x100 0x8000).length = 0x28200 := by
    rw [List.length_append, L4, hread]
  have L6 : (((((((magicHeader ++ List.replicate 492 0) ++ read 0x0 0x8000)
      ++ read 0x40 0x8000) ++ read 0x80 0x8000) ++ read 0xC0 0x8000)
      ++ read 0x100 0x8000) ++ read 0x140 0x8000).length = 0x30200 := by
    rw [List.length_append, L5, hread]
  have L7 : ((((((((magicHeader ++ List.replicate 492 0) ++ read 0x0 0x8000)
      ++ read 0x40 0x8000) ++ read 0x80 0x8000) ++ read 0xC0 0x8000)
      ++ read 0x100 0x8000) ++ read 0x140 0x8000) ++ read 0x180 0x2000).length
      = 0x32200 := by
    rw [List.length_append, L6, hread]
  have s1 : dumpLoop read
      ((magicHeader ++ List.replicate 492 0) ++ List.replicate 0x32200 0) 0x0
      = dumpLoop read (((magicHeader ++ List.replicate 492 0) ++ read 0x0 0x8000)
        ++ List.replicate 0x2A200 0) 0x40 :=
    dumpLoop_step read (magicHeader ++ List.replicate 492 0) 0x0 0x32200 0x8000
      (by rw [L0]) (by rw [L0]) (by norm_num) (hread 0x0 0x8000)
      (by norm_num) (by norm_num)
  have s2 : dumpLoop read (((magicHeader ++ List.replicate 492 0)
        ++ read 0x0 0x8000) ++ List.replicate 0x2A200 0) 0x40
      = dumpLoop read ((((magicHeader ++ List.replicate 492 0) ++ read 0x0 0x8000)
        ++ read 0x40 0x8000) ++ List.replicate 0x22200 0) 0x80 :=
    dumpLoop_step read ((magicHeader ++ List.replicate 492 0) ++ read 0x0 0x8000)
      0x40 0x2A200 0x8000
      (by rw [L1]) (by rw [L1]) (by norm_num) (hread 0x40 0x8000)
      (by norm_num) (by norm_num)
  have s3 : dumpLoop read ((((magicHeader ++ List.replicate 492 0)
        ++ read 0x0 0x8000) ++ read 0x40 0x8000) ++ List.replicate 0x22200 0) 0x80
      = dumpLoop read (((((magicHeader ++ List.replicate 492 0) ++ read 0x0 0x8000)
        ++ read 0x40 0x8000) ++ read 0x80 0x8000) ++ List.replicate 0x1A200 0) 0xC0 :=
    dumpLoop_step read (((magicHeader ++ List.replicate 492 0) ++ read 0x0 0x8000)
        ++ read 0x40 0x8000)
      0x80 0x22200 0x8000
      (by rw [L2]) (by rw [L2]) (by norm_num) (hread 0x80 0x8000)
      (by norm_num) (by norm_num)
  have s4 : dumpLoop read (((((magicHeader ++ List.replicate 492 0)
        ++ read 0x0 0x8000) ++ read 0x40 0x8000) ++ read 0x80 0x8000)
        ++ List.replicate 0x1A200 0) 0xC0
      = dumpLoop read ((((((magicHeader ++ List.replicate 492 0) ++ read 0x0 0x8000)
        ++ read 0x40 0x8000) ++ read 0x80 0x8000) ++ read 0xC0 0x8000)
        ++ List.replicate 0x12200 0) 0x100 :=
    dumpLoop_step read ((((magicHeader ++ List.replicate 492 0) ++ read 0x0 0x8000)
        ++ read 0x40 0x8000) ++ read 0x80 0x8000)
      0xC0 0x1A200 0x8000
      (by rw [L3]) (by rw [L3]) (by norm_num) (hread 0xC0 0x8000)
      (by norm_num) (by norm_num)
  have s5 : dumpLoop read ((((((magicHeader ++ List.replicate 492 0)
        ++ read 0x0 0x8000) ++ read 0x40 0x8000) ++ read 0x80 0x8000)
        ++ read 0xC0 0x8000) ++ List.replicate 0x12200 0) 0x100
      = dumpLoop read (((((((magicHeader ++ List.replicate 492 0) ++ read 0x0 0x8000)
        ++ read 0x40 0x8000) ++ read 0x80 0x8000) ++ read 0xC0 0x8000)
        ++ read 0x100 0x8000) ++ List.replicate 0xA200 0) 0x140 :=
    dumpLoop_step read (((((magicHeader ++ List.replicate 492 0) ++ read 0x0 0x8000)
        ++ read 0x40 0x8000) ++ read 0x80 0x8000) ++ read 0xC0 0x8000)
      0x100 0x12200 0x8000
      (by rw [L4]) (by rw [L4]) (by norm_num) (hread 0x100 0x8000)
      (by norm_num) (by norm_num)
  have s6 : dumpLoop read (((((((magicHeader ++ List.replicate 492 0)
        ++ read 0x0 0x8000) ++ read 0x40 0x8000) ++ read 0x80 0x8000)
        ++ read 0xC0 0x8000) ++ read 0x100 0x8000) ++ List.replicate 0xA200 0) 0x140
      = dumpLoop read ((((((((magicHeader ++ List.replicate 492 0) ++ read 0x0 0x8000)
        ++ read 0x40 0x8000) ++ read 0x80 0x8000) ++ read 0xC0 0x8000)
        ++ read 0x100 0x8000) ++ read 0x140 0x8000) ++ List.replicate 0x2200 0) 0x180 :=
    dumpLoop_step read ((((((magicHeader ++ List.replicate 492 0) ++ read 0x0 0x8000)
        ++ read 0x40 0x8000) ++ read 0x80 0x8000) ++ read 0xC0 0x8000)
        ++ read 0x100 0x8000)
      0x140 0xA200 0x8000
      (by rw [L5]) (by rw [L5]) (by norm_num) (hread 0x140 0x8000)
      (by norm_num) (by norm_num)
  have s7 : dumpLoop read ((((((((magicHeader ++ List.replicate 492 0)
        ++ read 0x0 0x8000) ++ read 0x40 0x8000) ++ read 0x80 0x8000)
        ++ read 0xC0 0x8000) ++ read 0x100 0x8000) ++ read 0x140 0x8000)
        ++ List.replicate 0x2200 0) 0x180
      = dumpLoop read (((((((((magicHeader ++ List.replicate 492 0) ++ read 0x0 0x8000)
        ++ read 0x40 0x8000) ++ read 0x80 0x8000) ++ read 0xC0 0x8000)
        ++ read 0x100 0x8000) ++ read 0x140 0x8000) ++ read 0x180 0x2000)
        ++ List.replicate 0x200 0) 0x1C0 :=
    dumpLoop_step read (((((((magicHeader ++ List.replicate 492 0) ++ read 0x0 0x8000)
        ++ read 0x40 0x8000) ++ read 0x80 0x8000) ++ read 0xC0 0x8000)
        ++ read 0x100 0x8000) ++ read 0x140 0x8000)
      0x180 0x2200 0x2000
      (by rw [L6]) (by rw [L6]) (by norm_num) (hread 0x180 0x2000)
      (by norm_num) (by norm_num)
  have Lfull : (((((((((magicHeader ++ List.replicate 492 0) ++ read 0x0 0x8000)
      ++ read 0x40 0x8000) ++ read 0x80 0x8000) ++ read 0xC0 0x8000)
      ++ read 0x100 0x8000) ++ read 0x140 0x8000) ++ read 0x180 0x2000)
      ++ List.replicate 0x200 0).length = 0x32400 := by
    rw [List.length_append, L7, List.length_replicate]
  have send : dumpLoop read (((((((((magicHeader ++ List.replicate 492 0)
        ++ read 0x0 0x8000) ++ read 0x40 0x8000) ++ read 0x80 0x8000)
        ++ read 0xC0 0x8000) ++ read 0x100 0x8000) ++ read 0x140 0x8000)
        ++ read 0x180 0x2000) ++ List.replicate 0x200 0) 0x1C0
      = ((((((((magicHeader ++ List.replicate 492 0)
        ++ read 0x0 0x8000) ++ read 0x40 0x8000) ++ read 0x80 0x8000)
        ++ read 0xC0 0x8000) ++ read 0x100 0x8000) ++ read 0x140 0x8000)
        ++ read 0x180 0x2000) ++ List.replicate 0x200 0 := by
    rw [dumpLoop, dif_neg (by rw [Lfull]; norm_num)]
  have hfoot : insert_data (((((((((magicHeader ++ List.replicate 492 0)
        ++ read 0x0 0x8000) ++ read 0x40 0x8000) ++ read 0x80 0x8000)
        ++ read 0xC0 0x8000) ++ read 0x100 0x8000) ++ read 0x140 0x8000)
        ++ read 0x180 0x2000) ++ List.replicate 0x200 0)
      ((((((((((magicHeader ++ List.replicate 492 0)
        ++ read 0x0 0x8000) ++ read 0x40 0x8000) ++ read 0x80 0x8000)
        ++ read 0xC0 0x8000) ++ read 0x100 0x8000) ++ read 0x140 0x8000)
        ++ read 0x180 0x2000) ++ List.replicate 0x200 0).length - 0x200) magicFooter
      = (((((((((magicHeader ++ List.replicate 492 0)
        ++ read 0x0 0x8000) ++ read 0x40 0x8000) ++ read 0x80 0x8000)
        ++ read 0xC0 0x8000) ++ read 0x100 0x8000) ++ read 0x140 0x8000)
        ++ read 0x180 0x2000) ++ magicFooter) ++ List.replicate 488 0 := by
    rw [Lfull]
    rw [show (0x32400 - 0x200 : Nat) = 0x32200 from by norm_num]
    rw [show (0x32200 : Nat) = ((((((((magicHeader ++ List.replicate 492 0)
      ++ read 0x0 0x8000) ++ read 0x40 0x8000) ++ read 0x80 0x8000)
      ++ read 0xC0 0x8000) ++ read 0x100 0x8000) ++ read 0x140 0x8000)
      ++ read 0x180 0x2000).length from L7.symm]
    rw [insert_data_mid _ magicFooter 0x200 _ (Nat.le_refl _)
      (by rw [L7, show magicFooter.length = 24 from rfl]; norm_num)]
    rw [show magicFooter.length = 24 from rfl]
    rw [L7]
    norm_num
  rw [dump_firmware]
  simp only [hins0, s1, s2, s3, s4, s5, s6, s7, send, hfoot]

theorem transfer_data_len1024 (st : Nat → Nat) (hst : st 0 = 0x55)
    (data : List Nat) (hlen : data.length = 1024) (hd bd : Nat) :
    transfer_data st data hd bd =
      ([Ev.loadHeader hd (data.take 0x200), Ev.getStatus], Outcome.ok) := by
  rw [transfer_data]
  simp [hst, hlen]

theorem transfer_data_first_chunk (st : Nat → Nat) (data : List Nat)
    (h0 : st 0 = 0x55) (h1 : st 1 = 0xA5)
    (hbig : 1024 + 0x8000 < data.length) (hd bd : Nat) :
    (transfer_data st data hd bd).2 = Outcome.unboundLocalSize ∧
    countBody (transfer_data st data hd bd).1 = 1 := by
  have hpos : ((data.length : Int) - 1024) > 0 := by omega
  have hchunk : ((data.length : Int) - 1024) > 0x8000 := by omega
  rw [transfer_data]
  simp [h0, h1, hpos, hchunk, countBody]

-- ------------------------------------------------------------------
-- Claims
-- ------------------------------------------------------------------

/-- C7: for every transport response of at least 4 bytes (whose bytes are
byte-valued), `get_num_lbas` returns the first four bytes combined
big-endian, plus one. -/
theorem get_num_lbas_be32 (res : List Nat) (hlen : 4 ≤ res.length)
    (hbytes : ∀ x ∈ res.take 4, x < 256) :
    get_num_lbas res = decode_be32 res + 1 := by
  match res with
  | [] => simp at hlen
  | [a] => simp at hlen
  | [a, b] => simp at hlen
  | [a, b, c] => simp at hlen
  | a :: b :: c :: d :: t =>
    have ha : a < 256 := hbytes a (by simp)
    have hb : b < 256 := hbytes b (by simp)
    have hc : c < 256 := hbytes c (by simp)
    have hd : d < 256 := hbytes d (by simp)
    have h4 : (a :: b :: c :: d :: t).take 4 = [a, b, c, d] := rfl
    rw [get_num_lbas, h4]
    have hfold : ([a, b, c, d].foldl (fun ret i => (ret <<< 8) ||| i) 0)
        = ((((0 <<< 8 ||| a) <<< 8) ||| b) <<< 8 ||| c) <<< 8 ||| d := rfl
    rw [hfold, shiftLeft8_or_eq _ _ ha, shiftLeft8_or_eq _ _ hb,
      shiftLeft8_or_eq _ _ hc, shiftLeft8_or_eq _ _ hd]
    show _ = decode_be32 (a :: b :: c :: d :: t) + 1
    rw [decode_be32]
    simp only [List.getD]
    norm_num
    omega

/-- C7 witness: `get_num_lbas` at the concrete response `[1, 2, 3, 4, 9]`. -/
theorem get_num_lbas_be32_witness :
    get_num_lbas [1, 2, 3, 4, 9] = decode_be32 [1, 2, 3, 4, 9] + 1 :=
  get_num_lbas_be32 [1, 2, 3, 4, 9] (by decide) (by decide)

/-- C8: for every 16-bit value and every in-range offset, patching a buffer
with `word_to_data` and reading the same offset back with the big-endian
reader `word_from_data` yields the value again. -/
theorem word_to_data_roundtrip (data : List Nat) (offset value : Nat)
    (hv : value ≤ 0xFFFF) (ho : offset + 1 < data.length) :
    word_from_data (word_to_data data offset value) offset = value := by
  rw [word_from_data, word_to_data]
  have hne : offset + 1 ≠ offset := by omega
  have hlt : offset < data.length := by omega
  have h1 : ((data.set offset ((value >>> 8) &&& 0xFF)).set (offset + 1)
      (value &&& 0xFF)).getD (offset + 1) 0 = value &&& 0xFF := by
    simp [List.getD, ho]
  have h0 : ((data.set offset ((value >>> 8) &&& 0xFF)).set (offset + 1)
      (value &&& 0xFF)).getD offset 0 = (value >>> 8) &&& 0xFF := by
    simp [List.getD, List.getElem?_set_ne hne, hlt]
  rw [h0, h1, and_255_eq_mod, and_255_eq_mod, Nat.shiftRight_eq_div_pow,
    Nat.shiftLeft_eq]
  norm_num
  omega

/-- C8 witness: round trip of the value 0xABCD at offset 1 of a 4-byte
buffer. -/
theorem word_to_data_roundtrip_witness :
    word_from_data (word_to_data [9, 9, 9, 9] 1 0xABCD) 1 = 0xABCD :=
  word_to_data_roundtrip [9, 9, 9, 9] 1 0xABCD (by decide) (by decide)

/-- C5: `transfer_data` always dispatches the first 512 bytes of the image
as a header-load command with the header selector patched in, followed by
one status query; it raises the header-rejection error exactly when byte 0
of that status response is not 0x55, and in that case the trace holds no
body-load dispatch. -/
theorem transfer_data_header_stage (status : Nat → Nat) (data : List Nat)
    (header body : Nat) :
    (transfer_data status data header body).1.take 2 =
      [Ev.loadHeader header (data.take 0x200), Ev.getStatus] ∧
    ((transfer_data status data header body).2 = Outcome.headerRejected ↔
      status 0 ≠ 0x55) ∧
    (status 0 ≠ 0x55 →
      (transfer_data status data header body).1 =
        [Ev.loadHeader header (data.take 0x200), Ev.getStatus]) := by
  rw [transfer_data]
  by_cases h : status 0 = 0x55
  · simp only [h, ne_eq, not_true_eq_false, if_false, ite_not]
    split
    · split <;> simp
    · simp
  · simp [h]

/-- C10: on an image of exactly 1024 bytes the body size is zero, so
`transfer_data` dispatches exactly the header-load command and one status
query, and returns normally when the status byte is 0x55. -/
theorem transfer_data_header_only (status : Nat → Nat) (data : List Nat)
    (header body : Nat) (hlen : data.length = 1024) :
    (transfer_data status data header body).1 =
      [Ev.loadHeader header (data.take 0x200), Ev.getStatus] ∧
    (status 0 = 0x55 → (transfer_data status data header body).2 = Outcome.ok) := by
  rw [transfer_data]
  by_cases h : status 0 = 0x55 <;> simp [h, hlen]

/-- C10 witness: a 1024-byte all-zero image on an accepting device. -/
theorem transfer_data_header_only_witness :
    (transfer_data (fun _ => 0x55) (List.replicate 1024 0) 0x03 0x02).1 =
      [Ev.loadHeader 0x03 ((List.replicate 1024 0).take 0x200), Ev.getStatus] ∧
    ((fun _ : Nat => 0x55) 0 = 0x55 →
      (transfer_data (fun _ => 0x55) (List.replicate 1024 0) 0x03 0x02).2 =
        Outcome.ok) :=
  transfer_data_header_only (fun _ => 0x55) (List.replicate 1024 0) 0x03 0x02
    (by rw [List.length_replicate])

/-- C1: the claim expects ⌈0x8001 / 0x8000⌉ = 2 body-load dispatches and
normal termination on an image with body size 0x8001, but `transfer_data`
dispatches only the first body chunk and then raises `UnboundLocalError`,
because the loop decrements the never-assigned variable `size` instead of
`data_size`. -/
theorem transfer_data_size_bug_eval :
    (transfer_data c1Status c1Data 0x03 0x02).2 = Outcome.unboundLocalSize ∧
    countBody (transfer_data c1Status c1Data 0x03 0x02).1 = 1 :=
  transfer_data_first_chunk c1Status c1Data rfl rfl
    (by rw [c1Data, List.length_replicate]; norm_num) 0x03 0x02

/-- C3: the claim expects `execute_image` to issue the jump-to-loaded-code
command after the transfer, but the source line `self.jump_to_pram` only
references the method without calling it, so the trace holds no
JUMP_TO_PRAM dispatch even on a fully accepted transfer. -/
theorem execute_image_no_jump_eval :
    (execute_image (fun _ => 0x55) (List.replicate 1024 0)).2 = Outcome.ok ∧
    Ev.jumpToPram ∉ (execute_image (fun _ => 0x55) (List.replicate 1024 0)).1 := by
  have h := transfer_data_len1024 (fun _ => 0x55) rfl (List.replicate 1024 0)
    (by rw [List.length_replicate]) 0x03 0x02
  rw [execute_image, h]
  simp

/-- C2: the claim expects `_run_firmware`, once the transfer stages are
accepted, to go on to issue the FIRMWARE_UPDATE commands with their selector
pairs, the second transfer, the jump-to-loaded-code and a fresh mode query;
but `FIRMWARE_UPDATE`'s command template is a tuple, so the patch
`FIRMWARE_UPDATE[0][2] = 0x01` raises `TypeError` right after the first
transfer: on an accepted 1024-byte image no FIRMWARE_UPDATE command, no
jump-to-loaded-code and no mode re-query is ever dispatched. -/
theorem run_firmware_tuple_assign_eval :
    (run_firmware (fun _ => 0x55) (List.replicate 1024 0)).2 =
      Outcome.typeErrorTupleAssign ∧
    (∀ s2 s3, Ev.firmwareUpdate s2 s3 ∉
      (run_firmware (fun _ => 0x55) (List.replicate 1024 0)).1) ∧
    Ev.jumpToPram ∉ (run_firmware (fun _ => 0x55) (List.replicate 1024 0)).1 ∧
    Ev.queryMode ∉ (run_firmware (fun _ => 0x55) (List.replicate 1024 0)).1 := by
  have h := transfer_data_len1024 (fun _ => 0x55) rfl (List.replicate 1024 0)
    (by rw [List.length_replicate]) 0x01 0x00
  rw [run_firmware, h]
  simp

/-- C4: with the VR marker present, the mode is the decode of the 8-byte tag
at 0xA0 (`" PRAM   "` ↦ 0, `" FW BURN"` ↦ 1, `" HV TEST"` ↦ 2, anything
else ↦ 3); with the marker absent the mode is undefined (`none`), and the
firmware-update dispatcher treats such a device exactly like one in
Firmware mode (3). -/
theorem mode_derivation (vi : List Nat) (hlen : vi.length = 528) :
    (vi.getD 0x17A 0 = 0x56 ∧ vi.getD 0x17B 0 = 0x52 →
      ((vi.drop 0xA0).take 8 = pramTag → mode_from_vendor_info vi = some 0) ∧
      ((vi.drop 0xA0).take 8 = fwBurnTag → mode_from_vendor_info vi = some 1) ∧
      ((vi.drop 0xA0).take 8 = hvTestTag → mode_from_vendor_info vi = some 2) ∧
      ((vi.drop 0xA0).take 8 ≠ pramTag → (vi.drop 0xA0).take 8 ≠ fwBurnTag →
        (vi.drop 0xA0).take 8 ≠ hvTestTag → mode_from_vendor_info vi = some 3)) ∧
    (¬(vi.getD 0x17A 0 = 0x56 ∧ vi.getD 0x17B 0 = 0x52) →
      mode_from_vendor_info vi = none ∧
      ∀ st fw hb, send_firmware st vi fw hb = send_firmware st viFirmware fw hb) := by
  have hfw : mode_from_vendor_info viFirmware = some 3 := by decide
  constructor
  · intro hm
    have hres : mode_from_vendor_info vi =
        (if (vi.drop 0xA0).take 8 = pramTag then some 0
         else if (vi.drop 0xA0).take 8 = fwBurnTag then some 1
         else if (vi.drop 0xA0).take 8 = hvTestTag then some 2
         else some 3) := by
      rw [mode_from_vendor_info, if_pos hm]
    refine ⟨fun h0 => ?_, fun h1 => ?_, fun h2 => ?_, fun n0 n1 n2 => ?_⟩
    · rw [hres, if_pos h0]
    · rw [hres, if_neg (by rw [h1]; decide), if_pos h1]
    · rw [hres, if_neg (by rw [h2]; decide), if_neg (by rw [h2]; decide),
        if_pos h2]
    · rw [hres, if_neg n0, if_neg n1, if_neg n2]
  · intro hm
    have hnone : mode_from_vendor_info vi = none := by
      rw [mode_from_vendor_info, if_neg hm]
    refine ⟨hnone, fun st fw hb => ?_⟩
    rw [send_firmware, send_firmware, hnone, hfw]
    simp

/-- C4 witness: a VendorInfo with the VR marker and the `" PRAM   "` tag
derives BootMode (0). -/
theorem mode_derivation_witness : mode_from_vendor_info viPram = some 0 :=
  ((mode_derivation viPram (by decide)).1 (by decide)).1 (by decide)

/-- C9: the claim expects `send_firmware`, from a non-Burner mode with a
burner image supplied, to execute the burner image after the boot-mode jump
and only then run the firmware-install sequence; but the call
`self.execute_image(burner_filename)` raises `TypeError` (`execute_image`
is defined without a `self` parameter), so on a device whose VR marker is
absent the trace ends after the mode query, the boot-mode jump and the
settle delay: the burner image is never executed and the firmware-install
sequence is never reached. -/
theorem send_firmware_missing_self_eval :
    send_firmware (fun _ => 0x55) viBlank (List.replicate 1024 0) true =
      ([Ev.queryMode, Ev.jumpToBootmode, Ev.sleep],
        Outcome.typeErrorMissingSelf) := by
  have hnone : mode_from_vendor_info viBlank = none := by decide
  rw [send_firmware, hnone]
  simp


/-- C6: for every transport whose responses have the expected lengths,
`dump_firmware` produces exactly 0x32400 bytes with the 20-byte magic header
at offset 0, the 24-byte magic trailer at offset 0x32200, and the body
blocks read from the device placed in order between them (offsets
0x200..0x32200). -/

theorem dump_firmware_layout (read : Nat → Nat → List Nat)
    (hread : ∀ a l, (read a l).length = l) :
    (dump_firmware read).length = 0x32400 ∧
    (dump_firmware read).take 20 = magicHeader ∧
    ((dump_firmware read).drop 0x32200).take 24 = magicFooter ∧
    ((dump_firmware read).drop 0x200).take 0x32000 =
      read 0x0 0x8000 ++ read 0x40 0x8000 ++ read 0x80 0x8000 ++ read 0xC0 0x8000
        ++ read 0x100 0x8000 ++ read 0x140 0x8000 ++ read 0x180 0x2000 := by
  have he := dump_firmware_eq read hread
  have hx7 : ((((((((magicHeader ++ List.replicate 492 0) ++ read 0x0 0x8000)
      ++ read 0x40 0x8000) ++ read 0x80 0x8000) ++ read 0xC0 0x8000)
      ++ read 0x100 0x8000) ++ read 0x140 0x8000) ++ read 0x180 0x2000).length
      = 0x32200 := by
    simp [List.length_append, List.length_replicate, hread,
      show magicHeader.length = 20 from rfl]
  refine ⟨?_, ?_, ?_, ?_⟩
  · rw [he, List.length_append, List.length_append, hx7, List.length_replicate,
      show magicFooter.length = 24 from rfl]
  · rw [he]
    simp only [List.append_assoc]
    rw [List.take_append_eq_append_take]
    norm_num [show magicHeader.length = 20 from rfl,
      show magicHeader.take 20 = magicHeader from rfl]
  · rw [he, List.append_assoc]
    rw [List.drop_left' hx7]
    rw [List.take_left' (show magicFooter.length = 24 from rfl)]
  · have he3 : dump_firmware read =
        (magicHeader ++ List.replicate 492 0) ++
          ((read 0x0 0x8000 ++ (read 0x40 0x8000 ++ (read 0x80 0x8000 ++
            (read 0xC0 0x8000 ++ (read 0x100 0x8000 ++ (read 0x140 0x8000 ++
            read 0x180 0x2000)))))) ++ (magicFooter ++ List.replicate 488 0)) := by
      rw [he]; simp [List.append_assoc]
    rw [he3]
    rw [List.drop_left' (show (magicHeader ++ List.replicate 492 0).length = 0x200
      from by rw [List.length_append, List.length_replicate]; decide)]
    rw [List.take_left' (show (read 0x0 0x8000 ++ (read 0x40 0x8000 ++
      (read 0x80 0x8000 ++ (read 0xC0 0x8000 ++ (read 0x100 0x8000 ++
      (read 0x140 0x8000 ++ read 0x180 0x2000)))))).length = 0x32000
      from by simp [List.length_append, hread])]
    simp [List.append_assoc]

/-- C6 witness: a stub transport returning zeroed blocks of the expected
length. -/
theorem dump_firmware_layout_witness :
    (dump_firmware (fun _ l => List.replicate l 0)).length = 0x32400 ∧
    (dump_firmware (fun _ l => List.replicate l 0)).take 20 = magicHeader ∧
    ((dump_firmware (fun _ l => List.replicate l 0)).drop 0x32200).take 24 =
      magicFooter ∧
    ((dump_firmware (fun _ l => List.replicate l 0)).drop 0x200).take 0x32000 =
      (fun (_ l : Nat) => List.replicate l (0 : Nat)) 0x0 0x8000 ++
        (fun (_ l : Nat) => List.replicate l (0 : Nat)) 0x40 0x8000 ++
        (fun (_ l : Nat) => List.replicate l (0 : Nat)) 0x80 0x8000 ++
        (fun (_ l : Nat) => List.replicate l (0 : Nat)) 0xC0 0x8000 ++
        (fun (_ l : Nat) => List.replicate l (0 : Nat)) 0x100 0x8000 ++
        (fun (_ l : Nat) => List.replicate l (0 : Nat)) 0x140 0x8000 ++
        (fun (_ l : Nat) => List.replicate l (0 : Nat)) 0x180 0x2000 :=
  dump_firmware_layout (fun _ l => List.replicate l 0)
    (fun _ l => by rw [List.length_replicate])

end Phison
